import Mathlib

/-!
Verification development for the cronbeats-python SDK
(`src/cronbeats_python/client.py`, `errors.py`, `http.py`).

Shallow embedding conventions:
* Decoded JSON values (the result of `json.loads`) are modelled by `JValue`;
  JSON text encoding/decoding itself is a library capability outside the
  core, so the transport is modelled as delivering the decode result
  directly: `none` stands for a `json.JSONDecodeError`, `some v` for a
  successfully decoded value `v`.
* Python floats are modelled as rationals (`Rat`); `float(x)` coercion is
  `pyFloat?`, with string coercion modelled for plain decimal literals
  (no exponents or specials — no verified property depends on those).
* `str(x)` is `pyStr`; it is exact for strings, booleans, `None` and ints.
  Renderings of floats and containers are modelled opaquely, since no
  verified property depends on them.
* The transport collaborator (`http_client.request`) is modelled as an
  infinite sequence of outcomes, one per invocation: either a
  transport-level failure (`SdkError` text) or an HTTP response
  (status plus decoded body).
* Raised exceptions become explicit result values (`Except` / `ReqResult`).
-/

/-- Decoded JSON values as produced by `json.loads`. Python distinguishes
int and float results, so the model does too. -/
inductive JValue where
  | null
  | bool (b : Bool)
  | int (n : Int)
  | float (q : Rat)
  | str (s : String)
  | arr (elems : List JValue)
  | obj (fields : List (String × JValue))

/-- Models `dict.get(key)` on a decoded JSON object. A decoded Python dict
has unique keys, so first-match lookup is faithful. -/
def pyGet (fields : List (String × JValue)) (key : String) : Option JValue :=
  match fields with
  | [] => none
  | (k, v) :: rest => if k = key then some v else pyGet rest key

/-- Models Python `str()` on decoded JSON values. Exact for strings,
booleans, `None` and ints; float and container renderings are modelled
opaquely (no verified property depends on them). -/
def pyStr : JValue → String
  | .null => "None"
  | .bool true => "True"
  | .bool false => "False"
  | .int n => toString n
  | .float q => toString q
  | .str s => s
  | .arr _ => "<list>"
  | .obj _ => "<dict>"

/-- Numeric value of a list of decimal digit characters. -/
def natOfDigits (l : List Char) : Nat :=
  l.foldl (fun acc ch => acc * 10 + (ch.toNat - 48)) 0

/-- Models Python `float(s)` on strings for plain decimal literals:
optional surrounding whitespace, optional sign, digits with at most one
decimal point. Exponents and specials are out of the model (no verified
property depends on them); unparseable strings yield `none`
(`ValueError` in Python). -/
def parsePyFloat (s : String) : Option Rat :=
  let l := s.trim.toList
  let signed : Int × List Char :=
    match l with
    | '-' :: rest => (-1, rest)
    | '+' :: rest => (1, rest)
    | _ => (1, l)
  let ip := signed.2.takeWhile Char.isDigit
  let rest := signed.2.dropWhile Char.isDigit
  match rest with
  | [] =>
    if ip.isEmpty then none
    else some ((signed.1 : Rat) * (natOfDigits ip : Rat))
  | '.' :: frac =>
    if frac.all Char.isDigit && !(ip.isEmpty && frac.isEmpty) then
      some ((signed.1 : Rat) *
        ((natOfDigits ip : Rat) + (natOfDigits frac : Rat) / (10 : Rat) ^ frac.length))
    else none
  | _ => none

/-- Models Python `float(x)` applied to a decoded JSON value: ints, floats
and booleans coerce; strings parse; `None`, lists and dicts raise
(`TypeError`), modelled as `none`. -/
def pyFloat? : JValue → Option Rat
  | .int n => some (n : Rat)
  | .float q => some q
  | .bool b => some (if b then 1 else 0)
  | .str s => parsePyFloat s
  | .null => none
  | .arr _ => none
  | .obj _ => none

/-- `PingClient._safe_json` (client.py:173-180), applied to the decode
result of the response body: a decoded object passes through; a decode
failure (`none`) or a decoded non-object value is replaced by the
placeholder payload. -/
def safeJson (decoded : Option JValue) : List (String × JValue) :=
  match decoded with
  | some (.obj l) => l
  | _ => [("message", JValue.str "Invalid JSON response")]

/-- `PingClient._map_error` (client.py:153-162): classification of a
non-2xx HTTP status into an error code and a retryable flag. -/
def mapError (status : Int) : String × Bool :=
  if status = 400 then ("VALIDATION_ERROR", false)
  else if status = 404 then ("NOT_FOUND", false)
  else if status = 429 then ("RATE_LIMITED", true)
  else if 500 ≤ status then ("SERVER_ERROR", true)
  else ("UNKNOWN_ERROR", false)

/-- Modelled from the spec's classification table (§4.4), row by row.
The rows are pairwise disjoint, so the table reads as an unordered set of
cases; this definition checks the `≥ 500` row first to make the
comparison with the code's ordering non-vacuous. -/
def mapErrorSpecTable (status : Int) : String × Bool :=
  if 500 ≤ status then ("SERVER_ERROR", true)
  else if status = 429 then ("RATE_LIMITED", true)
  else if status = 404 then ("NOT_FOUND", false)
  else if status = 400 then ("VALIDATION_ERROR", false)
  else ("UNKNOWN_ERROR", false)

/-- Client configuration after construction (`PingClient.__init__`,
client.py:17-28). The transport collaborator is not stored here; it is
passed to the pipeline as an outcome sequence. -/
structure Client where
  jobKey : String
  baseUrl : String
  timeoutMs : Int
  maxRetries : Int
  retryBackoffMs : Int
  retryJitterMs : Int
  userAgent : String

/-- Recognized construction options with their defaults
(client.py:22-27). -/
structure Options where
  baseUrl : String := "https://cronbeats.io"
  timeoutMs : Int := 5000
  maxRetries : Int := 2
  retryBackoffMs : Int := 250
  retryJitterMs : Int := 100
  userAgent : String := "cronbeats-python-sdk/0.1.0"

/-- Character class `[a-zA-Z0-9]` of the job-key pattern
(client.py:165). -/
def isBase62Char (ch : Char) : Bool :=
  decide (('a' ≤ ch ∧ ch ≤ 'z') ∨ ('A' ≤ ch ∧ ch ≤ 'Z') ∨ ('0' ≤ ch ∧ ch ≤ '9'))

/-- `re.fullmatch(r"[a-zA-Z0-9]{8}", job_key)` as a Boolean check
(client.py:164-166): the whole string is exactly 8 characters, each in
the class. -/
def jobKeyOk (s : String) : Bool :=
  s.length == 8 && s.data.all isBase62Char

/-- Models `str.rstrip("/")` on the base URL (client.py:22). -/
def rstripSlash (s : String) : String :=
  s.dropRightWhile (fun ch => ch = '/')

/-- `PingClient.__init__` (client.py:17-28): the job key is validated
first (`_assert_job_key`); on violation a `ValidationError` with the
given message is raised before anything else happens, and in particular
no transport invocation occurs (construction performs none in any case).
On success the configuration record is built from the options. -/
def initClient (jobKey : String) (opts : Options) : Except String Client :=
  if jobKeyOk jobKey then
    .ok { jobKey := jobKey
          baseUrl := rstripSlash opts.baseUrl
          timeoutMs := opts.timeoutMs
          maxRetries := opts.maxRetries
          retryBackoffMs := opts.retryBackoffMs
          retryJitterMs := opts.retryJitterMs
          userAgent := opts.userAgent }
  else
    .error "jobKey must be exactly 8 Base62 characters."

/-- Normalized success record (`_normalize_success`'s return value,
client.py:143-151). -/
structure NormalizedResult where
  ok : Bool
  action : String
  jobKey : String
  timestamp : String
  processingTimeMs : Rat
  nextExpected : Option String
  raw : List (String × JValue)

/-- `PingClient._normalize_success` (client.py:135-151). Notes:
`payload.get(k, d)` returns the stored value even when it is JSON null,
so `str()` of an explicit null yields the string rendering of `None`;
`next_expected` becomes `none` both when absent and when explicitly
null, since `dict.get` cannot distinguish the two. -/
def normalizeSuccess (action : String) (jobKey : String)
    (payload : List (String × JValue)) : NormalizedResult :=
  let processing := (pyGet payload "processing_time_ms").getD (.float 0)
  let processingMs := (pyFloat? processing).getD 0
  { ok := true
    action := pyStr ((pyGet payload "action").getD (.str action))
    jobKey := pyStr ((pyGet payload "job_key").getD (.str jobKey))
    timestamp := pyStr ((pyGet payload "timestamp").getD (.str ""))
    processingTimeMs := processingMs
    nextExpected :=
      match pyGet payload "next_expected" with
      | some .null => none
      | none => none
      | some v => some (pyStr v)
    raw := payload }

/-- One transport invocation's outcome: a transport-level failure
(`SdkError` raised by `http_client.request`, carrying the error text) or
an HTTP response, carried as its status and the JSON-decode result of
its body text. -/
inductive Outcome where
  | tfail (msg : String)
  | tresp (status : Int) (decoded : Option JValue)

/-- Terminal result of the request pipeline: a normalized success record,
or an `ApiError` (errors.py:14-27) with its code, optional HTTP status,
retryable flag, message, and — for the response branch — the decoded
payload stored as `raw` (the network branch stores the exception object,
modelled as `none`). -/
inductive ReqResult where
  | success (r : NormalizedResult)
  | apiError (code : String) (httpStatus : Option Int) (retryable : Bool)
      (message : String) (raw : Option (List (String × JValue)))

/-- Observable run of one pipeline call: its terminal result, the number
of transport invocations made, and the attempt numbers passed to
`_sleep_with_backoff`, in order. -/
structure RunOutcome where
  result : ReqResult
  calls : Nat
  sleeps : List Nat

/-- The retry loop of `PingClient._request` (client.py:89-133), with the
transport modelled as the outcome sequence `outcomes` (invocation `i`
observes `outcomes i`; the loop makes exactly one invocation per
iteration and increments `attempt` by one before each retry, so the
invocation index equals the current `attempt`). -/
def requestLoop (c : Client) (action : String) (outcomes : Nat → Outcome)
    (attempt : Nat) : RunOutcome :=
  match outcomes attempt with
  | .tfail msg =>
    if h : c.maxRetries ≤ (attempt : Int) then
      ⟨.apiError "NETWORK_ERROR" none true msg none, attempt + 1, []⟩
    else
      let rest := requestLoop c action outcomes (attempt + 1)
      ⟨rest.result, rest.calls, (attempt + 1) :: rest.sleeps⟩
  | .tresp status d =>
    let decoded := safeJson d
    if 200 ≤ status ∧ status < 300 then
      ⟨.success (normalizeSuccess action c.jobKey decoded), attempt + 1, []⟩
    else
      if h2 : (mapError status).2 = true ∧ (attempt : Int) < c.maxRetries then
        let rest := requestLoop c action outcomes (attempt + 1)
        ⟨rest.result, rest.calls, (attempt + 1) :: rest.sleeps⟩
      else
        ⟨.apiError (mapError status).1 (some status) (mapError status).2
            (pyStr ((pyGet decoded "message").getD (.str "Request failed")))
            (some decoded),
          attempt + 1, []⟩
termination_by (c.maxRetries - (attempt : Int)).toNat
decreasing_by
  · simp_wf
    omega
  · simp_wf
    obtain ⟨-, h2⟩ := h2
    omega

/-- `PingClient._request` entered from any facade operation: the loop
starts with `attempt = 0` (client.py:82). -/
def request (c : Client) (action : String) (outcomes : Nat → Outcome) :
    RunOutcome :=
  requestLoop c action outcomes 0

/-- Delay in milliseconds computed by `PingClient._sleep_with_backoff`
(client.py:168-171) for a given attempt number and a given jitter draw
`j`: `retry_backoff_ms * 2 ** max(0, attempt - 1) + j`, exact integer
arithmetic. -/
def sleepDelayMs (c : Client) (attempt : Int) (j : Int) : Int :=
  c.retryBackoffMs * 2 ^ (max 0 (attempt - 1)).toNat + j

/-- Set of possible jitter draws: `random.randint(0, max(0,
retry_jitter_ms))` samples uniformly from this inclusive range
(client.py:170). -/
def jitterRange (c : Client) : Finset Int :=
  Finset.Icc 0 (max 0 c.retryJitterMs)

/-- The polymorphic first argument of `PingClient.progress`
(client.py:48): Python `None`, a bare int, or an options dict. The
dict's `seq` entry is carried after its `int()` coercion and its
`message` entry after its `str()` coercion (the coercions themselves are
library capabilities; no verified property depends on their failure
modes). -/
inductive ProgressArg where
  | noArg
  | seqInt (n : Int)
  | options (seq : Option Int) (message : Option String)

/-- Message truncation of `PingClient.progress` (client.py:62-64):
messages longer than 255 characters are cut to the first 255. -/
def truncate255 (s : String) : String :=
  if s.length > 255 then s.take 255 else s

/-- `PingClient.progress` (client.py:48-77) up to its `_request` call:
resolves the polymorphic input to `(seq, msg)`, validates `seq`, and
produces the URL path and request body handed to the pipeline. The
final `body["progress"] = seq_or_options` assignment at client.py:74-75
is translated as written: it runs only when `seq` is `None` and the
original input was an int. -/
def progressCall (c : Client) (arg : ProgressArg) (message : Option String) :
    Except String (String × List (String × JValue)) :=
  let seq : Option Int :=
    match arg with
    | .seqInt n => some n
    | .options s _ => s
    | .noArg => none
  let msg : Option String :=
    match arg with
    | .options _ m => some (m.getD (message.getD ""))
    | _ => message
  match seq with
  | some n =>
    if n < 0 then
      .error "Progress seq must be a non-negative integer."
    else
      .ok ("/ping/" ++ c.jobKey ++ "/progress/" ++ toString n,
        [("message", JValue.str (truncate255 (msg.getD "")))])
  | none =>
    let body := [("message", JValue.str (truncate255 (msg.getD "")))]
    let body :=
      match arg with
      | .seqInt k => body ++ [("progress", JValue.int k)]
      | _ => body
    .ok ("/ping/" ++ c.jobKey ++ "/progress", body)

/-! ### Unfolding lemmas for the retry loop -/

/-- Transport failure with the retry budget exhausted: terminal
`NETWORK_ERROR` (client.py:102-110). -/
theorem requestLoop_tfail_done (c : Client) (action : String)
    (outcomes : Nat → Outcome) (attempt : Nat) (msg : String)
    (ho : outcomes attempt = .tfail msg)
    (h : c.maxRetries ≤ (attempt : Int)) :
    requestLoop c action outcomes attempt =
      ⟨.apiError "NETWORK_ERROR" none true msg none, attempt + 1, []⟩ := by
  rw [requestLoop, ho]
  simp only [dif_pos h]

/-- Transport failure with budget left: increment the attempt, sleep,
retry (client.py:111-113). -/
theorem requestLoop_tfail_retry (c : Client) (action : String)
    (outcomes : Nat → Outcome) (attempt : Nat) (msg : String)
    (ho : outcomes attempt = .tfail msg)
    (h : (attempt : Int) < c.maxRetries) :
    requestLoop c action outcomes attempt =
      ⟨(requestLoop c action outcomes (attempt + 1)).result,
       (requestLoop c action outcomes (attempt + 1)).calls,
       (attempt + 1) :: (requestLoop c action outcomes (attempt + 1)).sleeps⟩ := by
  rw [requestLoop, ho]
  simp only [dif_neg (not_le.mpr h)]

/-- A 2xx response: terminal normalized success (client.py:118-119). -/
theorem requestLoop_success (c : Client) (action : String)
    (outcomes : Nat → Outcome) (attempt : Nat) (status : Int)
    (d : Option JValue)
    (ho : outcomes attempt = .tresp status d)
    (h : 200 ≤ status ∧ status < 300) :
    requestLoop c action outcomes attempt =
      ⟨.success (normalizeSuccess action c.jobKey (safeJson d)),
       attempt + 1, []⟩ := by
  rw [requestLoop, ho]
  simp only [if_pos h]

/-- A retryable non-2xx response with budget left: increment the attempt,
sleep, retry (client.py:122-125). -/
theorem requestLoop_retryable (c : Client) (action : String)
    (outcomes : Nat → Outcome) (attempt : Nat) (status : Int)
    (d : Option JValue)
    (ho : outcomes attempt = .tresp status d)
    (hs : ¬(200 ≤ status ∧ status < 300))
    (hr : (mapError status).2 = true)
    (hlt : (attempt : Int) < c.maxRetries) :
    requestLoop c action outcomes attempt =
      ⟨(requestLoop c action outcomes (attempt + 1)).result,
       (requestLoop c action outcomes (attempt + 1)).calls,
       (attempt + 1) :: (requestLoop c action outcomes (attempt + 1)).sleeps⟩ := by
  rw [requestLoop, ho]
  simp only [if_neg hs, dif_pos (And.intro hr hlt)]

/-- A non-2xx response that is non-retryable or out of budget: terminal
`ApiError` from the classification (client.py:127-133). -/
theorem requestLoop_error_done (c : Client) (action : String)
    (outcomes : Nat → Outcome) (attempt : Nat) (status : Int)
    (d : Option JValue)
    (ho : outcomes attempt = .tresp status d)
    (hs : ¬(200 ≤ status ∧ status < 300))
    (ht : ¬((mapError status).2 = true ∧ (attempt : Int) < c.maxRetries)) :
    requestLoop c action outcomes attempt =
      ⟨.apiError (mapError status).1 (some status) (mapError status).2
          (pyStr ((pyGet (safeJson d) "message").getD (.str "Request failed")))
          (some (safeJson d)),
        attempt + 1, []⟩ := by
  rw [requestLoop, ho]
  simp only [if_neg hs, dif_neg ht]

/-! ### Auxiliary concrete inputs and spec-side definitions -/

/-- Modelled from the spec: membership in `^[A-Za-z0-9]{8}$` — exactly 8
characters, each an ASCII letter or digit (spec §4.1, §6, §8). -/
def specJobKeyValid (s : String) : Prop :=
  s.length = 8 ∧
    ∀ ch ∈ s.data,
      ('A' ≤ ch ∧ ch ≤ 'Z') ∨ ('a' ≤ ch ∧ ch ≤ 'z') ∨ ('0' ≤ ch ∧ ch ≤ '9')

/-- The code's job-key check agrees with the spec's regular expression. -/
theorem jobKeyOk_iff (s : String) : jobKeyOk s = true ↔ specJobKeyValid s := by
  unfold jobKeyOk specJobKeyValid isBase62Char
  simp only [Bool.and_eq_true, beq_iff_eq, List.all_eq_true, decide_eq_true_eq,
    String.length]
  constructor
  · rintro ⟨h1, h2⟩
    exact ⟨h1, fun ch hch => by have := h2 ch hch; tauto⟩
  · rintro ⟨h1, h2⟩
    exact ⟨h1, fun ch hch => by have := h2 ch hch; tauto⟩

/-- A client built with the default options and job key `"abc123de"`,
used as a concrete instantiation point. -/
def cDefault : Client :=
  ⟨"abc123de", "https://cronbeats.io", 5000, 2, 250, 100,
   "cronbeats-python-sdk/0.1.0"⟩

/-- The spec's §8 example payload: `processing_time_ms: 8.25`,
`job_key: "abc123de"`. -/
def examplePayload : List (String × JValue) :=
  [("processing_time_ms", JValue.float (33 / 4)), ("job_key", JValue.str "abc123de")]

/-- Transport that answers every invocation with a 2xx response carrying
the example payload. -/
def pingExampleOutcomes : Nat → Outcome :=
  fun _ => .tresp 200 (some (.obj examplePayload))

/-- Concrete payload used to instantiate the normalization theorem. -/
def wPayload : List (String × JValue) :=
  [("action", JValue.str "beat"), ("processing_time_ms", JValue.str "12.5")]

/-! ### Claims -/

/-- C1: status classification is a pure, total function of the HTTP
status, and for every integer status it returns exactly the pair of the
spec's table (400 ↦ VALIDATION_ERROR/false, 404 ↦ NOT_FOUND/false,
429 ↦ RATE_LIMITED/true, ≥500 ↦ SERVER_ERROR/true, everything else ↦
UNKNOWN_ERROR/false). Determinism and idempotence are inherent:
`mapError` is a pure function of its argument, so repeated calls agree
by reflexivity; the content is the pointwise agreement with the spec
table. -/
theorem mapError_matches_spec_table :
    ∀ status : Int, mapError status = mapErrorSpecTable status := by
  intro status
  unfold mapError mapErrorSpecTable
  split_ifs <;> first | rfl | omega

/-- C9: for the n-th retry (n ≥ 1) the computed sleep delay is exactly
`retry_backoff_ms * 2 ^ (n - 1) + j` milliseconds in exact integer
arithmetic, where the jitter draw `j` ranges over the inclusive integer
interval from 0 to `max 0 retry_jitter_ms` (a negative configured
jitter is clamped to 0). -/
theorem sleepDelay_formula (c : Client) (n : Nat) (j : Int)
    (hn : 1 ≤ n) (hj : j ∈ jitterRange c) :
    sleepDelayMs c (n : Int) j = c.retryBackoffMs * 2 ^ (n - 1) + j ∧
    jitterRange c = Finset.Icc 0 (max 0 c.retryJitterMs) := by
  refine ⟨?_, rfl⟩
  have h1 : max 0 ((n : Int) - 1) = (n : Int) - 1 := max_eq_right (by omega)
  have h2 : ((n : Int) - 1).toNat = n - 1 := by omega
  unfold sleepDelayMs
  rw [h1, h2]

/-- Witness for C9 at `n = 2`, `j = 3` on the default configuration. -/
theorem sleepDelay_formula_witness :
    sleepDelayMs cDefault (2 : Nat) 3 =
      cDefault.retryBackoffMs * 2 ^ (2 - 1) + 3 ∧
    jitterRange cDefault = Finset.Icc 0 (max 0 cDefault.retryJitterMs) :=
  sleepDelay_formula cDefault 2 3 (by omega)
    (by norm_num [jitterRange, Finset.mem_Icc, cDefault])

/-- C8: constructing a client with a job identifier outside
`^[A-Za-z0-9]{8}$` fails immediately with the validation error, and with
a matching identifier construction succeeds (and stores the identifier);
`initClient` performs no transport invocation in either case — the
transport collaborator does not even occur in its type. -/
theorem initClient_job_key_validation (s : String) (opts : Options) :
    (¬ specJobKeyValid s →
      initClient s opts = .error "jobKey must be exactly 8 Base62 characters.") ∧
    (specJobKeyValid s → ∃ c, initClient s opts = .ok c ∧ c.jobKey = s) := by
  constructor
  · intro h
    have hb : jobKeyOk s = false := by
      cases hb : jobKeyOk s
      · rfl
      · exact absurd ((jobKeyOk_iff s).mp hb) h
    unfold initClient
    rw [hb]
    simp
  · intro h
    have hb : jobKeyOk s = true := (jobKeyOk_iff s).mpr h
    refine ⟨{ jobKey := s
              baseUrl := rstripSlash opts.baseUrl
              timeoutMs := opts.timeoutMs
              maxRetries := opts.maxRetries
              retryBackoffMs := opts.retryBackoffMs
              retryJitterMs := opts.retryJitterMs
              userAgent := opts.userAgent }, ?_, rfl⟩
    unfold initClient
    rw [hb]
    simp

/-- Witness for C8: `"invalid-key"` is rejected, `"abc123de"` is
accepted. -/
theorem initClient_job_key_validation_witness :
    initClient "invalid-key" {} = .error "jobKey must be exactly 8 Base62 characters." ∧
    ∃ c, initClient "abc123de" {} = .ok c ∧ c.jobKey = "abc123de" :=
  ⟨(initClient_job_key_validation "invalid-key" {}).1
      (by unfold specJobKeyValid; decide),
   (initClient_job_key_validation "abc123de" {}).2
      (by unfold specJobKeyValid; decide)⟩

/-- C7: whatever the HTTP status, a body that fails to decode or decodes
to a non-object is replaced by the placeholder payload
`{message: "Invalid JSON response"}`, and the pipeline continues with
it — in particular a 2xx response with an undecodable body still
produces a normalized success after one invocation, never a failure. -/
theorem safe_json_placeholder_and_continue :
    (∀ d : Option JValue, (∀ l, d ≠ some (.obj l)) →
      safeJson d = [("message", JValue.str "Invalid JSON response")]) ∧
    (∀ (c : Client) (action : String) (outcomes : Nat → Outcome),
      outcomes 0 = .tresp 200 none →
      request c action outcomes =
        ⟨.success (normalizeSuccess action c.jobKey
            [("message", JValue.str "Invalid JSON response")]), 1, []⟩) := by
  constructor
  · intro d h
    match d with
    | none => rfl
    | some .null => rfl
    | some (.bool b) => rfl
    | some (.int n) => rfl
    | some (.float q) => rfl
    | some (.str s) => rfl
    | some (.arr l) => rfl
    | some (.obj l) => exact absurd rfl (h l)
  · intro c action outcomes h0
    rw [request, requestLoop_success c action outcomes 0 200 none h0 (by omega)]
    rfl

/-- Witness for C7: a decoded non-object (`3`) yields the placeholder,
and a 2xx response with an undecodable body still succeeds. -/
theorem safe_json_placeholder_witness :
    safeJson (some (.int 3)) = [("message", JValue.str "Invalid JSON response")] ∧
    request cDefault "ping" (fun _ => .tresp 200 none) =
      ⟨.success (normalizeSuccess "ping" cDefault.jobKey
          [("message", JValue.str "Invalid JSON response")]), 1, []⟩ :=
  ⟨safe_json_placeholder_and_continue.1 (some (.int 3)) (fun l h => by simp at h),
   safe_json_placeholder_and_continue.2 cDefault "ping" (fun _ => .tresp 200 none) rfl⟩

/-- C5: for every decoded JSON object payload the normalized record has
`ok = true`, takes `action` / `jobKey` / `timestamp` from the payload
(stringified) with the input action name, the client's job identifier
and the empty string as respective fallbacks, coerces
`processing_time_ms` to a number with 0.0 on absence or coercion
failure, stringifies `next_expected` (absent ↦ null), and carries the
full payload as `raw`; in particular a 2xx response with
`processing_time_ms: 8.25` and `job_key: "abc123de"` makes `ping()`
return `ok = true`, action `"ping"`, jobKey `"abc123de"`,
processingTimeMs `8.25`. -/
theorem normalize_success_fields (action jobKey : String)
    (payload : List (String × JValue)) :
    (normalizeSuccess action jobKey payload).ok = true
    ∧ (pyGet payload "action" = none →
        (normalizeSuccess action jobKey payload).action = action)
    ∧ (∀ v, pyGet payload "action" = some v →
        (normalizeSuccess action jobKey payload).action = pyStr v)
    ∧ (pyGet payload "job_key" = none →
        (normalizeSuccess action jobKey payload).jobKey = jobKey)
    ∧ (∀ v, pyGet payload "job_key" = some v →
        (normalizeSuccess action jobKey payload).jobKey = pyStr v)
    ∧ (pyGet payload "timestamp" = none →
        (normalizeSuccess action jobKey payload).timestamp = "")
    ∧ (∀ v, pyGet payload "timestamp" = some v →
        (normalizeSuccess action jobKey payload).timestamp = pyStr v)
    ∧ (pyGet payload "processing_time_ms" = none →
        (normalizeSuccess action jobKey payload).processingTimeMs = 0)
    ∧ (∀ v, pyGet payload "processing_time_ms" = some v →
        (normalizeSuccess action jobKey payload).processingTimeMs =
          (pyFloat? v).getD 0)
    ∧ (pyGet payload "next_expected" = none →
        (normalizeSuccess action jobKey payload).nextExpected = none)
    ∧ (∀ v, pyGet payload "next_expected" = some v → v ≠ .null →
        (normalizeSuccess action jobKey payload).nextExpected = some (pyStr v))
    ∧ (normalizeSuccess action jobKey payload).raw = payload
    ∧ request cDefault "ping" pingExampleOutcomes =
        ⟨.success ⟨true, "ping", "abc123de", "", 33 / 4, none, examplePayload⟩,
         1, []⟩ := by
  refine ⟨rfl, ?_, ?_, ?_, ?_, ?_, ?_, ?_, ?_, ?_, ?_, rfl, ?_⟩
  · intro h
    simp [normalizeSuccess, h, pyStr]
  · intro v h
    simp [normalizeSuccess, h]
  · intro h
    simp [normalizeSuccess, h, pyStr]
  · intro v h
    simp [normalizeSuccess, h]
  · intro h
    simp [normalizeSuccess, h, pyStr]
  · intro v h
    simp [normalizeSuccess, h]
  · intro h
    simp [normalizeSuccess, h, pyFloat?]
  · intro v h
    simp [normalizeSuccess, h]
  · intro h
    simp [normalizeSuccess, h]
  · intro v h hnull
    have hm : (match pyGet payload "next_expected" with
        | some .null => none
        | none => none
        | some w => some (pyStr w)) = some (pyStr v) := by
      rw [h]
      cases v
      case null => exact absurd rfl hnull
      all_goals rfl
    simp only [normalizeSuccess]
    exact hm
  · rw [request,
      requestLoop_success cDefault "ping" pingExampleOutcomes 0 200
        (some (.obj examplePayload)) rfl (by omega)]
    rfl

/-- Witness for C5 on a concrete payload with a present `action` field,
an absent `job_key` field, and a string-valued `processing_time_ms`. -/
theorem normalize_success_fields_witness :
    (normalizeSuccess "ping" "abc123de" wPayload).action = pyStr (.str "beat") ∧
    (normalizeSuccess "ping" "abc123de" wPayload).jobKey = "abc123de" ∧
    (normalizeSuccess "ping" "abc123de" wPayload).processingTimeMs =
      (pyFloat? (.str "12.5")).getD 0 := by
  obtain ⟨-, -, h3, h4, -, -, -, -, h9, -, -, -, -⟩ :=
    normalize_success_fields "ping" "abc123de" wPayload
  exact ⟨h3 (.str "beat") rfl, h4 rfl, h9 (.str "12.5") rfl⟩

/-- C2: with `max_retries ≥ 1`, a retryable first outcome (HTTP 429 or a
transport-level failure) followed by an HTTP 200 response makes the call
return the success normalized from the second response after exactly 2
transport invocations (with one backoff sleep in between), raising no
error. -/
theorem retryable_then_success (c : Client) (action : String)
    (outcomes : Nat → Outcome) (msg : String) (d0 d1 : Option JValue)
    (hM : 1 ≤ c.maxRetries)
    (h0 : outcomes 0 = .tfail msg ∨ outcomes 0 = .tresp 429 d0)
    (h1 : outcomes 1 = .tresp 200 d1) :
    request c action outcomes =
      ⟨.success (normalizeSuccess action c.jobKey (safeJson d1)), 2, [1]⟩ := by
  have hrest : requestLoop c action outcomes 1 =
      ⟨.success (normalizeSuccess action c.jobKey (safeJson d1)), 2, []⟩ :=
    requestLoop_success c action outcomes 1 200 d1 h1 (by omega)
  rcases h0 with h0 | h0
  · rw [request, requestLoop_tfail_retry c action outcomes 0 msg h0 (by
      simpa using hM), hrest]
  · rw [request, requestLoop_retryable c action outcomes 0 429 d0 h0
      (by omega) (by decide) (by simpa using hM), hrest]

/-- Witness for C2: a 429 then a 200 on the default configuration. -/
theorem retryable_then_success_witness :
    request cDefault "ping"
        (fun i => if i = 0 then .tresp 429 none else .tresp 200 (some (.obj []))) =
      ⟨.success (normalizeSuccess "ping" cDefault.jobKey
          (safeJson (some (.obj [])))), 2, [1]⟩ :=
  retryable_then_success cDefault "ping"
    (fun i => if i = 0 then .tresp 429 none else .tresp 200 (some (.obj [])))
    "" none (some (.obj [])) (by decide) (Or.inr rfl) rfl

/-- C3: whatever `max_retries`, a non-retryable status ends the call
after exactly one transport invocation: a 404 response raises ApiError
NOT_FOUND (retryable false, http status 404), and a 400 response is
never retried and raises ApiError VALIDATION_ERROR (retryable false,
http status 400); in both cases the message comes from the decoded
payload's `message` field with `"Request failed"` as fallback. -/
theorem non_retryable_single_attempt (c : Client) (action : String)
    (o4 o0 : Nat → Outcome) (d4 d0 : Option JValue)
    (h404 : o4 0 = .tresp 404 d4) (h400 : o0 0 = .tresp 400 d0) :
    request c action o4 =
      ⟨.apiError "NOT_FOUND" (some 404) false
          (pyStr ((pyGet (safeJson d4) "message").getD (.str "Request failed")))
          (some (safeJson d4)), 1, []⟩ ∧
    request c action o0 =
      ⟨.apiError "VALIDATION_ERROR" (some 400) false
          (pyStr ((pyGet (safeJson d0) "message").getD (.str "Request failed")))
          (some (safeJson d0)), 1, []⟩ := by
  constructor
  · rw [request, requestLoop_error_done c action o4 0 404 d4 h404 (by omega)
      (by rintro ⟨hf, -⟩; revert hf; decide)]
    rfl
  · rw [request, requestLoop_error_done c action o0 0 400 d0 h400 (by omega)
      (by rintro ⟨hf, -⟩; revert hf; decide)]
    rfl

/-- Witness for C3: concrete 404 and 400 responses with undecodable
bodies on the default configuration (whose `max_retries` is 2 > 0). -/
theorem non_retryable_single_attempt_witness :
    request cDefault "ping" (fun _ => .tresp 404 none) =
      ⟨.apiError "NOT_FOUND" (some 404) false
          (pyStr ((pyGet (safeJson none) "message").getD (.str "Request failed")))
          (some (safeJson none)), 1, []⟩ ∧
    request cDefault "ping" (fun _ => .tresp 400 none) =
      ⟨.apiError "VALIDATION_ERROR" (some 400) false
          (pyStr ((pyGet (safeJson none) "message").getD (.str "Request failed")))
          (some (safeJson none)), 1, []⟩ :=
  non_retryable_single_attempt cDefault "ping"
    (fun _ => .tresp 404 none) (fun _ => .tresp 400 none) none none rfl rfl

/-- C6 counterexample: calling progress with the bare integer 5 sends
body `{"message": ""}` over the seq-present path — the body contains no
`progress` field, contradicting the claimed echo. The echo assignment
(client.py:74-75) is unreachable: an int input always sets `seq`, and
the `seq`-present branch returns first. -/
theorem progress_echo_counterexample :
    progressCall cDefault (.seqInt 5) none =
      .ok ("/ping/abc123de/progress/5", [("message", JValue.str "")]) ∧
    pyGet [("message", JValue.str "")] "progress" = none := by
  constructor
  · rfl
  · rfl

/-- C6 amended: a bare non-negative integer progress input takes the
seq-present path `/progress/{n}` with body `{"message": ...}` and never
gains a `progress` field; it behaves identically to the
structured-options input with the same sequence number (the echo branch
is dead code). -/
theorem progress_bare_int_no_echo (c : Client) (n : Int)
    (message : Option String) (hn : 0 ≤ n) :
    progressCall c (.seqInt n) message =
      .ok ("/ping/" ++ c.jobKey ++ "/progress/" ++ toString n,
        [("message", JValue.str (truncate255 (message.getD "")))]) ∧
    progressCall c (.seqInt n) message =
      progressCall c (.options (some n) none) message ∧
    pyGet [("message", JValue.str (truncate255 (message.getD "")))] "progress" =
      none := by
  have hlt : ¬ n < 0 := not_lt.mpr hn
  refine ⟨?_, ?_, rfl⟩
  · unfold progressCall
    dsimp only
    rw [if_neg hlt]
  · unfold progressCall
    dsimp only
    rw [if_neg hlt, if_neg hlt]
    rfl

/-- Witness for the amended C6 at `n = 7`, message `"hi"`. -/
theorem progress_bare_int_no_echo_witness :
    progressCall cDefault (.seqInt 7) (some "hi") =
      .ok ("/ping/" ++ cDefault.jobKey ++ "/progress/" ++ toString (7 : Int),
        [("message", JValue.str (truncate255 ((some "hi").getD "")))]) ∧
    progressCall cDefault (.seqInt 7) (some "hi") =
      progressCall cDefault (.options (some 7) none) (some "hi") ∧
    pyGet [("message", JValue.str (truncate255 ((some "hi").getD "")))]
        "progress" = none :=
  progress_bare_int_no_echo cDefault 7 (some "hi") (by omega)

/-- Exhaustion of the retry budget under persistent transport failures:
starting from any attempt with `k` retries left, the loop consumes `k`
more failures (sleeping after each) and then fails terminally with
`NETWORK_ERROR` carrying the final failure's text. -/
theorem requestLoop_all_tfail (c : Client) (action : String)
    (outcomes : Nat → Outcome) (msgs : Nat → String)
    (hfail : ∀ i, outcomes i = .tfail (msgs i)) :
    ∀ (k attempt : Nat), (c.maxRetries - (attempt : Int)).toNat = k →
      requestLoop c action outcomes attempt =
        ⟨.apiError "NETWORK_ERROR" none true (msgs (attempt + k)) none,
         attempt + k + 1, List.range' (attempt + 1) k⟩ := by
  intro k
  induction k with
  | zero =>
    intro attempt hk
    have hM : c.maxRetries ≤ (attempt : Int) := by omega
    rw [requestLoop_tfail_done c action outcomes attempt (msgs attempt)
      (hfail attempt) hM]
    rfl
  | succ k ih =>
    intro attempt hk
    have hM : (attempt : Int) < c.maxRetries := by omega
    rw [requestLoop_tfail_retry c action outcomes attempt (msgs attempt)
      (hfail attempt) hM, ih (attempt + 1) (by omega)]
    have h1 : attempt + 1 + k = attempt + (k + 1) := by omega
    dsimp only
    rw [h1]
    rfl

/-- C4: if every transport invocation fails at the transport level, each
failure before exhaustion increments the attempt counter, sleeps with
backoff (the sleeps trace is exactly the attempts 1, …, max(max_retries,
0)) and retries; once the attempt count has reached `max_retries` the
call raises ApiError NETWORK_ERROR with no HTTP status, retryable true,
and message equal to the final underlying transport error's text. -/
theorem network_error_after_exhaustion (c : Client) (action : String)
    (outcomes : Nat → Outcome) (msgs : Nat → String)
    (hfail : ∀ i, outcomes i = .tfail (msgs i)) :
    request c action outcomes =
      ⟨.apiError "NETWORK_ERROR" none true (msgs c.maxRetries.toNat) none,
       c.maxRetries.toNat + 1, List.range' 1 c.maxRetries.toNat⟩ := by
  have h := requestLoop_all_tfail c action outcomes msgs hfail
    c.maxRetries.toNat 0 (by omega)
  rw [request]
  simpa using h

/-- Witness for C4: persistent `"socket timeout"` failures on the
default configuration. -/
theorem network_error_after_exhaustion_witness :
    request cDefault "ping" (fun _ => .tfail "socket timeout") =
      ⟨.apiError "NETWORK_ERROR" none true "socket timeout" none,
       cDefault.maxRetries.toNat + 1, List.range' 1 cDefault.maxRetries.toNat⟩ :=
  network_error_after_exhaustion cDefault "ping"
    (fun _ => .tfail "socket timeout") (fun _ => "socket timeout")
    (fun _ => rfl)

/-- Terminal behavior once the retry budget is exhausted: with
`max_retries ≤ attempt`, every outcome ends the loop after exactly one
more transport invocation. -/
theorem requestLoop_calls_terminal (c : Client) (action : String)
    (outcomes : Nat → Outcome) (attempt : Nat)
    (hM : c.maxRetries ≤ (attempt : Int)) :
    (requestLoop c action outcomes attempt).calls = attempt + 1 := by
  cases ho : outcomes attempt with
  | tfail msg =>
    rw [requestLoop_tfail_done c action outcomes attempt msg ho hM]
  | tresp status d =>
    by_cases hs : 200 ≤ status ∧ status < 300
    · rw [requestLoop_success c action outcomes attempt status d ho hs]
    · rw [requestLoop_error_done c action outcomes attempt status d ho hs
        (by rintro ⟨-, hlt⟩; omega)]

/-- Invocation-count bounds for the loop from any starting attempt. -/
theorem requestLoop_calls_bound (c : Client) (action : String)
    (outcomes : Nat → Outcome) :
    ∀ (k attempt : Nat), (c.maxRetries - (attempt : Int)).toNat ≤ k →
      attempt + 1 ≤ (requestLoop c action outcomes attempt).calls ∧
      ((requestLoop c action outcomes attempt).calls : Int) ≤
        max c.maxRetries (attempt : Int) + 1 := by
  intro k
  induction k with
  | zero =>
    intro attempt hk
    have hM : c.maxRetries ≤ (attempt : Int) := by omega
    rw [requestLoop_calls_terminal c action outcomes attempt hM]
    constructor
    · exact le_refl _
    · omega
  | succ k ih =>
    intro attempt hk
    by_cases hM : c.maxRetries ≤ (attempt : Int)
    · rw [requestLoop_calls_terminal c action outcomes attempt hM]
      constructor
      · exact le_refl _
      · omega
    · have hlt : (attempt : Int) < c.maxRetries := by omega
      have ihs := ih (attempt + 1) (by omega)
      cases ho : outcomes attempt with
      | tfail msg =>
        rw [requestLoop_tfail_retry c action outcomes attempt msg ho hlt]
        dsimp only
        omega
      | tresp status d =>
        by_cases hs : 200 ≤ status ∧ status < 300
        · rw [requestLoop_success c action outcomes attempt status d ho hs]
          dsimp only
          omega
        · by_cases hr : (mapError status).2 = true
          · rw [requestLoop_retryable c action outcomes attempt status d
              ho hs hr hlt]
            dsimp only
            omega
          · rw [requestLoop_error_done c action outcomes attempt status d
              ho hs (by rintro ⟨hf, -⟩; exact hr hf)]
            dsimp only
            omega

/-- C10: for every configuration (any `max_retries`, including 0 or
negative) and every infinite outcome sequence, a pipeline call
terminates (the loop is defined by well-founded recursion on the gap
between the strictly increasing attempt counter and `max_retries`), and
the transport is invoked at least once and at most
`max(max_retries, 0) + 1` times. -/
theorem pipeline_invocation_bounds :
    ∀ (c : Client) (action : String) (outcomes : Nat → Outcome),
      1 ≤ (request c action outcomes).calls ∧
      ((request c action outcomes).calls : Int) ≤ max c.maxRetries 0 + 1 := by
  intro c action outcomes
  have h := requestLoop_calls_bound c action outcomes
    (c.maxRetries - (0 : Int)).toNat 0 (by omega)
  rw [request]
  simpa using h
